import Mathlib

/-!
Verification development for the windfreak-python driver
(`src/windfreak/synth_hd.py`): a shallow embedding of the SynthHD /
SynthHDChannel classes and the serial command marshalling they drive.

Modelling conventions:
* Python floats are embedded as rationals (`ℚ`); Python ints as `ℤ`.
* A write operation is embedded as the list of command lines it transmits,
  in order; a property setter returns `Except PyError (List String)`, where
  `Except.error` models the Python exception raised before any line is
  transmitted (in the source every `raise` precedes every `self.write`).
* Device replies are passed to getters as already-decoded values.
* `device.py` (class `SerialDevice`) is imported by the source but is not
  part of the source tree; its formatting behaviour is modelled from the
  spec (see `SerialDevice.write`).
-/

namespace Windfreak

/-- A Python value as passed to a property setter. `pyBool` is kept separate
from `pyInt` but counts as an `int` for `isinstance` checks, as in Python. -/
inductive PyVal where
  | pyBool (b : Bool)
  | pyInt (n : Int)
  | pyFloat (q : ℚ)
  | pyStr (s : String)
  | pyNone
deriving DecidableEq

/-- The error taxonomy: `validation` stands for the `ValueError`/`TypeError`
raised by property setters on bad caller input, `invalidAttribute` for
writing/reading an attribute that has no write template / query command,
`protocol` for a malformed or out-of-range device reply. -/
inductive PyError where
  | validation
  | invalidAttribute
  | protocol
deriving DecidableEq

/-- One item of a format template: a literal piece, a plain `{}` placeholder,
or a fixed-point `{:.pf}` placeholder with `p` decimals. The API table's
format strings are transcribed into lists of these. -/
inductive TItem where
  | lit (s : String)
  | ph
  | phFixed (p : Nat)
deriving DecidableEq

/-- Python type tags of the API table's first column. -/
inductive PyType where
  | tInt
  | tFloat
  | tBool
  | tStr
  | tNoneType
deriving DecidableEq

/-- One row of the API table: value type, write template, query command. -/
structure AttrSpec where
  dtype : PyType
  wtmpl : Option (List TItem)
  qtmpl : Option (List TItem)

/-- Left-pad a digit string with zeros to length `p`. -/
def padZeros (p : Nat) (s : String) : String :=
  String.mk (List.replicate (p - s.length) '0') ++ s

/-- Fixed-point decimal rendering of a rational with `p` decimals, the
numeric content of Python's `{:.pf}` format (round to nearest at the
`p`-th decimal). -/
def formatFixed (p : Nat) (x : ℚ) : String :=
  let n : Int := round (x * (10 : ℚ) ^ p)
  let sign := if n < 0 then "-" else ""
  let a := n.natAbs
  sign ++ toString (a / 10 ^ p) ++ "." ++ padZeros p (toString (a % 10 ^ p))

/-- Modelled from the spec: formatting of one argument by `device.py`'s
`SerialDevice.write` (absent from the source tree). Per spec §4.2 and the
wire table (§6), booleans are transmitted as `0`/`1`, integers in decimal,
floats in fixed-decimal notation with the template's precision. -/
def formatArg : TItem → PyVal → Option String
  | .ph, .pyBool b => some (if b then "1" else "0")
  | .ph, .pyInt n => some (toString n)
  | .ph, .pyStr s => some s
  | .phFixed p, .pyFloat x => some (formatFixed p x)
  | .phFixed p, .pyInt n => some (formatFixed p (n : ℚ))
  | .phFixed p, .pyBool b => some (formatFixed p (if b then 1 else 0))
  | _, _ => none

/-- Format a whole template against an argument list; `none` on arity
mismatch or an argument the placeholder cannot render. -/
def formatTemplate : List TItem → List PyVal → Option String
  | [], [] => some ""
  | .lit s :: rest, args => (formatTemplate rest args).map fun r => s ++ r
  | t :: rest, a :: args =>
      match formatArg t a with
      | some s => (formatTemplate rest args).map fun r => s ++ r
      | none => none
  | _, _ => none

/-- The `SynthHD.API` registry, transcribed row by row from the source.
Format strings become `TItem` lists: `'C{}'` is `[lit "C", ph]`,
`'f{:.7f}'` is `[lit "f", phFixed 7]`, and so on. -/
def API : List (String × AttrSpec) := [
  ("channel",          ⟨.tInt,   some [.lit "C", .ph],       some [.lit "C?"]⟩),
  ("frequency",        ⟨.tFloat, some [.lit "f", .phFixed 7], some [.lit "f?"]⟩),
  ("power",            ⟨.tFloat, some [.lit "W", .phFixed 3], some [.lit "W?"]⟩),
  ("calibrated",       ⟨.tBool,  none,                       some [.lit "V"]⟩),
  ("temp_comp_mode",   ⟨.tInt,   some [.lit "Z", .ph],       some [.lit "Z?"]⟩),
  ("vga_dac",          ⟨.tInt,   some [.lit "a", .ph],       some [.lit "a?"]⟩),
  ("phase_step",       ⟨.tFloat, some [.lit "~", .phFixed 3], some [.lit "~?"]⟩),
  ("rf_mute",          ⟨.tBool,  some [.lit "h", .ph],       some [.lit "h?"]⟩),
  ("pa_power_on",      ⟨.tBool,  some [.lit "r", .ph],       some [.lit "r?"]⟩),
  ("pll_power_on",     ⟨.tBool,  some [.lit "E", .ph],       some [.lit "E?"]⟩),
  ("model_type",       ⟨.tStr,   none,                       some [.lit "+"]⟩),
  ("serial_number",    ⟨.tInt,   none,                       some [.lit "-"]⟩),
  ("fw_version",       ⟨.tStr,   none,                       some [.lit "v0"]⟩),
  ("hw_version",       ⟨.tStr,   none,                       some [.lit "v1"]⟩),
  ("save",             ⟨.tNoneType, some [.lit "e"],         none⟩),
  ("reference_mode",   ⟨.tInt,   some [.lit "x", .ph],       some [.lit "x?"]⟩),
  ("trig_function",    ⟨.tInt,   some [.lit "w", .ph],       some [.lit "w?"]⟩),
  ("pll_lock",         ⟨.tBool,  none,                       some [.lit "p"]⟩),
  ("temperature",      ⟨.tFloat, none,                       some [.lit "z"]⟩),
  ("ref_frequency",    ⟨.tFloat, some [.lit "*", .phFixed 3], some [.lit "*?"]⟩),
  ("sweep_freq_low",   ⟨.tInt,   some [.lit "l", .ph],       some [.lit "l?"]⟩),
  ("sweep_freq_high",  ⟨.tInt,   some [.lit "u", .ph],       some [.lit "u?"]⟩),
  ("sweep_freq_step",  ⟨.tInt,   some [.lit "s", .ph],       some [.lit "s?"]⟩),
  ("sweep_time_step",  ⟨.tInt,   some [.lit "t", .phFixed 3], some [.lit "t?"]⟩),
  ("sweep_power_low",  ⟨.tInt,   some [.lit "[", .phFixed 3], some [.lit "[?"]⟩),
  ("sweep_power_high", ⟨.tInt,   some [.lit "]", .phFixed 3], some [.lit "]?"]⟩),
  ("sweep_direction",  ⟨.tInt,   some [.lit "^", .ph],       some [.lit "^?"]⟩),
  ("sweep_diff_freq",  ⟨.tInt,   some [.lit "k", .ph],       some [.lit "k?"]⟩),
  ("sweep_diff_meth",  ⟨.tInt,   some [.lit "n", .ph],       some [.lit "n?"]⟩),
  ("sweep_type",       ⟨.tInt,   some [.lit "X", .ph],       some [.lit "X?"]⟩),
  ("sweep_single",     ⟨.tBool,  some [.lit "g", .ph],       some [.lit "g?"]⟩),
  ("sweep_cont",       ⟨.tBool,  some [.lit "c", .ph],       some [.lit "c?"]⟩),
  ("am_time_step",     ⟨.tInt,   some [.lit "F", .ph],       some [.lit "F?"]⟩),
  ("am_num_samples",   ⟨.tInt,   some [.lit "q", .ph],       some [.lit "q?"]⟩),
  ("am_cont",          ⟨.tBool,  some [.lit "A", .ph],       some [.lit "A?"]⟩),
  ("am_lookup_table",  ⟨.tInt,   some [.lit "@", .ph, .ph],  some [.lit "@", .ph, .lit "?"]⟩),
  ("pulse_on_time",    ⟨.tInt,   some [.lit "P", .ph],       some [.lit "P?"]⟩),
  ("pulse_off_time",   ⟨.tInt,   some [.lit "O", .ph],       some [.lit "O?"]⟩),
  ("pulse_num_rep",    ⟨.tInt,   some [.lit "R", .ph],       some [.lit "R?"]⟩),
  ("pulse_invert",     ⟨.tBool,  some [.lit ":", .ph],       some [.lit ":?"]⟩),
  ("pulse_single",     ⟨.tNoneType, some [.lit "G"],         none⟩),
  ("pulse_cont",       ⟨.tBool,  some [.lit "j", .ph],       some [.lit "j?"]⟩),
  ("dual_pulse_mod",   ⟨.tBool,  some [.lit "D", .ph],       some [.lit "D?"]⟩),
  ("fm_frequency",     ⟨.tInt,   some [.lit "<", .ph],       some [.lit "<?"]⟩),
  ("fm_deviation",     ⟨.tInt,   some [.lit ">", .ph],       some [.lit ">?"]⟩),
  ("fm_num_samples",   ⟨.tInt,   some [.lit ",", .ph],       some [.lit ",?"]⟩),
  ("fm_mod_type",      ⟨.tInt,   some [.lit ";", .ph],       some [.lit ";?"]⟩),
  ("fm_cont",          ⟨.tBool,  some [.lit "/", .ph],       some [.lit "/?"]⟩)]

/-- Registry lookup by attribute name. -/
def apiLookup (name : String) : Option AttrSpec :=
  (API.find? fun e => e.1 == name).map Prod.snd

namespace SerialDevice

/-- Modelled from the spec: `SerialDevice.write` of `device.py` (absent from
the source tree). Per spec §4.2 it resolves the attribute in the registry,
formats the write template with the arguments and transmits the resulting
line; an unknown attribute, a read-only attribute or an arity mismatch is
an error raised before anything is transmitted. The returned string is the
one transmitted command line. -/
def write (attr : String) (args : List PyVal) : Except PyError String :=
  match apiLookup attr with
  | none => .error .invalidAttribute
  | some spec =>
    match spec.wtmpl with
    | none => .error .invalidAttribute
    | some t =>
      match formatTemplate t args with
      | none => .error .invalidAttribute
      | some line => .ok line

/-- Modelled from the spec: the command line transmitted by
`SerialDevice.read` of `device.py` (absent from the source tree). Per spec
§4.3 it formats the query command with the arguments and transmits it as
one line, then blocks for the reply (the reply itself is passed to getters
separately in this embedding). -/
def read (attr : String) (args : List PyVal) : Except PyError String :=
  match apiLookup attr with
  | none => .error .invalidAttribute
  | some spec =>
    match spec.qtmpl with
    | none => .error .invalidAttribute
    | some t =>
      match formatTemplate t args with
      | none => .error .invalidAttribute
      | some line => .ok line

end SerialDevice

/-- A channel view: bound to its parent session by the channel index
(`SynthHDChannel.__init__` stores `parent` and `index`). -/
structure SynthHDChannel where
  index : Nat
deriving DecidableEq

namespace SynthHDChannel

/-- `SynthHDChannel.select`: writes the parent's `channel` attribute with
this channel's index; returns the transmitted line. -/
def select (c : SynthHDChannel) : Except PyError String :=
  SerialDevice.write "channel" [.pyInt c.index]

/-- `SynthHDChannel.write`: channel-select, then delegate the attribute
write to the parent. The result is the list of transmitted lines. -/
def write (c : SynthHDChannel) (attr : String) (args : List PyVal) :
    Except PyError (List String) := do
  let s ← c.select
  let l ← SerialDevice.write attr args
  pure [s, l]

/-- `SynthHDChannel.read`: channel-select, then delegate the attribute read
to the parent. The result is the list of transmitted lines (select line,
then the attribute's query command line). -/
def read (c : SynthHDChannel) (attr : String) (args : List PyVal) :
    Except PyError (List String) := do
  let s ← c.select
  let q ← SerialDevice.read attr args
  pure [s, q]

end SynthHDChannel

/-- Python's `isinstance(value, (float, int))`: true for floats, ints and
booleans (`bool` is a subclass of `int` in Python). -/
def PyVal.isNumber : PyVal → Bool
  | .pyBool _ => true
  | .pyInt _ => true
  | .pyFloat _ => true
  | _ => false

/-- Python's `isinstance(value, int)`: true for ints and booleans. -/
def PyVal.isIntType : PyVal → Bool
  | .pyBool _ => true
  | .pyInt _ => true
  | _ => false

/-- Numeric value of a Python numeric (`True` counts as 1, `False` as 0). -/
def PyVal.toRat : PyVal → ℚ
  | .pyBool b => if b then 1 else 0
  | .pyInt n => n
  | .pyFloat q => q
  | _ => 0

/-- Integer value of a Python `int` (`True` counts as 1, `False` as 0). -/
def PyVal.toIntVal : PyVal → Int
  | .pyBool b => if b then 1 else 0
  | .pyInt n => n
  | _ => 0

/-- A `{start, stop, step}` range descriptor as returned by the
`*_range` properties. -/
structure ValueRange where
  start : ℚ
  stop : ℚ
  step : ℚ

/-- Python's tuple indexing `xs[i]` for `i : int`: `0 ≤ i < len` reads from
the front, `-len ≤ i < 0` reads from the back (`xs[len + i]`), anything
else raises `IndexError` (modelled as `none`). -/
def pyTupleGet (xs : List String) (i : Int) : Option String :=
  if 0 ≤ i ∧ i < xs.length then xs.get? i.toNat
  else if -(xs.length : Int) ≤ i ∧ i < 0 then xs.get? ((xs.length : Int) + i).toNat
  else none

namespace SynthHDChannel

/-- `SynthHDChannel.frequency_range`: Hz. -/
def frequency_range : ValueRange := ⟨53000000, 13999999999, 1/10⟩

/-- `SynthHDChannel.power_range`: dBm. -/
def power_range : ValueRange := ⟨-60, 20, 1/1000⟩

/-- `SynthHDChannel.vga_dac_range`. -/
def vga_dac_range : ValueRange := ⟨0, 45000, 1⟩

/-- `SynthHDChannel.phase_range`: degrees. -/
def phase_range : ValueRange := ⟨0, 360, 1/1000⟩

/-- `SynthHDChannel.frequency` setter: validates type and range
(`raise` when not a number or outside `[start, stop]`), then writes
`value / 1e6` (MHz) to the `frequency` attribute. -/
def frequencySet (c : SynthHDChannel) (value : PyVal) :
    Except PyError (List String) :=
  if value.isNumber ∧ frequency_range.start ≤ value.toRat ∧
      value.toRat ≤ frequency_range.stop
  then c.write "frequency" [.pyFloat (value.toRat / 1000000)]
  else .error .validation

/-- `SynthHDChannel.frequency` getter: the device's MHz reading times 1e6. -/
def frequencyGet (replyMHz : ℚ) : ℚ :=
  replyMHz * 1000000

/-- `SynthHDChannel.power` setter: validates the type only (`raise
TypeError` when not float or int), then writes the value unchanged. -/
def powerSet (c : SynthHDChannel) (value : PyVal) :
    Except PyError (List String) :=
  if value.isNumber
  then c.write "power" [.pyFloat value.toRat]
  else .error .validation

/-- `SynthHDChannel.phase` setter: validates the type only, then writes the
value to the `phase_step` attribute. -/
def phaseSet (c : SynthHDChannel) (value : PyVal) :
    Except PyError (List String) :=
  if value.isNumber
  then c.write "phase_step" [.pyFloat value.toRat]
  else .error .validation

/-- `SynthHDChannel.vga_dac` setter: validates `isinstance(value, int)`
only, then writes the value to the `vga_dac` attribute. -/
def vgaDacSet (c : SynthHDChannel) (value : PyVal) :
    Except PyError (List String) :=
  if value.isIntType
  then c.write "vga_dac" [.pyInt value.toIntVal]
  else .error .validation

/-- `SynthHDChannel.temp_compensation_modes`. -/
def temp_compensation_modes : List String :=
  ["none", "on set", "1 sec", "10 sec"]

/-- `SynthHDChannel.temp_compensation_mode` getter:
`self.temp_compensation_modes[self.read('temp_comp_mode')]`, with the
device reply passed in already decoded as an integer. `none` models the
`IndexError` escaping the lookup. -/
def tempCompModeGet (i : Int) : Option String :=
  pyTupleGet temp_compensation_modes i

/-- `SynthHDChannel.temp_compensation_mode` setter: rejects strings not in
the mode tuple, then writes the string's (first) index. -/
def tempCompModeSet (c : SynthHDChannel) (value : String) :
    Except PyError (List String) :=
  if value ∈ temp_compensation_modes
  then c.write "temp_comp_mode" [.pyInt (temp_compensation_modes.indexOf value : Nat)]
  else .error .validation

/-- `SynthHDChannel.rf_mute` getter as a function of the decoded device
reply for the `rf_mute` attribute: `not self.read('rf_mute')`. -/
def rfMuteGet (raw : Bool) : Bool :=
  !raw

/-- `SynthHDChannel.rf_mute` setter: rejects non-bools, then writes
`not value` to the `rf_mute` attribute. -/
def rfMuteSet (c : SynthHDChannel) (value : PyVal) :
    Except PyError (List String) :=
  match value with
  | .pyBool b => c.write "rf_mute" [.pyBool (!b)]
  | _ => .error .validation

/-- `SynthHDChannel.pa_enable` getter from the decoded `pa_power_on`
reply. -/
def paEnableGet (raw : Bool) : Bool :=
  raw

/-- `SynthHDChannel.pa_enable` setter: rejects non-bools, then writes the
value to the `pa_power_on` attribute. -/
def paEnableSet (c : SynthHDChannel) (value : PyVal) :
    Except PyError (List String) :=
  match value with
  | .pyBool b => c.write "pa_power_on" [.pyBool b]
  | _ => .error .validation

/-- `SynthHDChannel.pll_enable` getter from the decoded `pll_power_on`
reply. -/
def pllEnableGet (raw : Bool) : Bool :=
  raw

/-- `SynthHDChannel.pll_enable` setter: rejects non-bools, then writes the
value to the `pll_power_on` attribute. -/
def pllEnableSet (c : SynthHDChannel) (value : PyVal) :
    Except PyError (List String) :=
  match value with
  | .pyBool b => c.write "pll_power_on" [.pyBool b]
  | _ => .error .validation

/-- `SynthHDChannel.enable` getter,
`not self.rf_mute and self.pll_enable and self.pa_enable`, as a function
of the three decoded device replies (raw reads of the `rf_mute`,
`pll_power_on` and `pa_power_on` attributes). -/
def enableGet (rfMuteRaw pllRaw paRaw : Bool) : Bool :=
  !(rfMuteGet rfMuteRaw) && pllEnableGet pllRaw && paEnableGet paRaw

/-- `SynthHDChannel.enable` setter: rejects non-bools, then assigns
`rf_mute = not value`, `pll_enable = value`, `pa_enable = value` in that
order; the result concatenates the three writes' transmitted lines. -/
def enableSet (c : SynthHDChannel) (value : PyVal) :
    Except PyError (List String) :=
  match value with
  | .pyBool b => do
      let t1 ← c.rfMuteSet (.pyBool (!b))
      let t2 ← c.pllEnableSet (.pyBool b)
      let t3 ← c.paEnableSet (.pyBool b)
      pure (t1 ++ t2 ++ t3)
  | _ => .error .validation

/-- `SynthHDChannel.init`: `enable = False`, `frequency = start`,
`power = start`, `phase = 0.`, `temp_compensation_mode = '10 sec'`;
the concatenated transmitted lines. -/
def initTrace (c : SynthHDChannel) : Except PyError (List String) := do
  let t1 ← c.enableSet (.pyBool false)
  let t2 ← c.frequencySet (.pyFloat frequency_range.start)
  let t3 ← c.powerSet (.pyFloat power_range.start)
  let t4 ← c.phaseSet (.pyFloat 0)
  let t5 ← c.tempCompModeSet "10 sec"
  pure (t1 ++ t2 ++ t3 ++ t4 ++ t5)

end SynthHDChannel

namespace SynthHD

/-- `SynthHD.reference_modes`. -/
def reference_modes : List String :=
  ["external", "internal 27mhz", "internal 10mhz"]

/-- `SynthHD.reference_mode` getter:
`self.reference_modes[self.read('reference_mode')]`, with the device reply
passed in already decoded as an integer. `none` models the `IndexError`
escaping the lookup. -/
def referenceModeGet (i : Int) : Option String :=
  pyTupleGet reference_modes i

/-- `SynthHD.reference_mode` setter: rejects strings not in the mode tuple
(before any write), then writes the string's (first) index to the
`reference_mode` attribute. The singleton list is the transmitted line. -/
def referenceModeSet (value : String) : Except PyError (List String) :=
  if value ∈ reference_modes
  then (SerialDevice.write "reference_mode"
          [.pyInt (reference_modes.indexOf value : Nat)]).map fun l => [l]
  else .error .validation

/-- `SynthHD.trigger_modes`: note `'reserved'` appears at indices 6 and 7. -/
def trigger_modes : List String :=
  ["disabled",
   "full frequency sweep",
   "single frequency step",
   "stop all",
   "rf enable",
   "remove interrupts",
   "reserved",
   "reserved",
   "am modulation",
   "fm modulation"]

/-- `SynthHD.trigger_mode` getter:
`self.trigger_modes[self.read('trig_function')]`, with the device reply
passed in already decoded as an integer. -/
def triggerModeGet (i : Int) : Option String :=
  pyTupleGet trigger_modes i

/-- `SynthHD.trigger_mode` setter: rejects strings not in the mode tuple,
then writes the string's first index (`tuple.index`) to the
`trig_function` attribute. -/
def triggerModeSet (value : String) : Except PyError (List String) :=
  if value ∈ trigger_modes
  then (SerialDevice.write "trig_function"
          [.pyInt (trigger_modes.indexOf value : Nat)]).map fun l => [l]
  else .error .validation

/-- `SynthHD.reference_frequency_range`: Hz. -/
def reference_frequency_range : ValueRange := ⟨10000000, 100000000, 1000⟩

/-- `SynthHD.reference_frequency` setter: validates type and range, then
writes `value / 1e6` (MHz) to the `ref_frequency` attribute. -/
def referenceFrequencySet (value : PyVal) : Except PyError (List String) :=
  if value.isNumber ∧ reference_frequency_range.start ≤ value.toRat ∧
      value.toRat ≤ reference_frequency_range.stop
  then (SerialDevice.write "ref_frequency"
          [.pyFloat (value.toRat / 1000000)]).map fun l => [l]
  else .error .validation

/-- `SynthHD.reference_frequency` getter: the MHz reading times 1e6. -/
def referenceFrequencyGet (replyMHz : ℚ) : ℚ :=
  replyMHz * 1000000

/-- `SynthHD.sweep_enable` setter: rejects non-bools, then writes the value
to the `sweep_cont` attribute. -/
def sweepEnableSet (value : PyVal) : Except PyError (List String) :=
  match value with
  | .pyBool b => (SerialDevice.write "sweep_cont" [.pyBool b]).map fun l => [l]
  | _ => .error .validation

/-- `SynthHD.am_enable` setter: rejects non-bools, then writes the value to
the `am_cont` attribute. -/
def amEnableSet (value : PyVal) : Except PyError (List String) :=
  match value with
  | .pyBool b => (SerialDevice.write "am_cont" [.pyBool b]).map fun l => [l]
  | _ => .error .validation

/-- `SynthHD.pulse_mod_enable` setter: rejects non-bools, then writes the
value to the `pulse_cont` attribute. -/
def pulseModEnableSet (value : PyVal) : Except PyError (List String) :=
  match value with
  | .pyBool b => (SerialDevice.write "pulse_cont" [.pyBool b]).map fun l => [l]
  | _ => .error .validation

/-- `SynthHD.dual_pulse_mod_enable` setter: rejects non-bools, then writes
the value to the `dual_pulse_mod` attribute. -/
def dualPulseModEnableSet (value : PyVal) : Except PyError (List String) :=
  match value with
  | .pyBool b => (SerialDevice.write "dual_pulse_mod" [.pyBool b]).map fun l => [l]
  | _ => .error .validation

/-- `SynthHD.fm_enable` setter: rejects non-bools, then writes the value to
the `fm_cont` attribute. -/
def fmEnableSet (value : PyVal) : Except PyError (List String) :=
  match value with
  | .pyBool b => (SerialDevice.write "fm_cont" [.pyBool b]).map fun l => [l]
  | _ => .error .validation

end SynthHD

/-- The driver-side state of a `SynthHD` object: the channel list created
in `__init__` (the serial port handle lives in the transport layer and is
out of scope). The only assignment to `_channels` in the source is the one
in `__init__`. -/
structure SynthHDState where
  channels : List SynthHDChannel

namespace SynthHDState

/-- `SynthHD.__init__`:
`self._channels = [SynthHDChannel(self, index) for index in range(2)]`. -/
def make : SynthHDState :=
  ⟨(List.range 2).map fun index => ⟨index⟩⟩

/-- `SynthHD.__getitem__`: delegates to the channel list (`none` models the
`IndexError` of an out-of-range key). -/
def getitem (d : SynthHDState) (key : Nat) : Option SynthHDChannel :=
  d.channels.get? key

/-- `SynthHD.__len__`: delegates to the channel list. -/
def len (d : SynthHDState) : Nat :=
  d.channels.length

/-- `SynthHD.init`: device-level settings (`reference_mode`,
`trigger_mode`, the five modulation enables), then `channel.init()` for
each channel in order. Returns the unchanged driver state and the
concatenated transmitted lines; no statement in `SynthHD.init` (or in any
method it calls) assigns `_channels`. -/
def initOp (d : SynthHDState) : Except PyError (SynthHDState × List String) := do
  let t1 ← SynthHD.referenceModeSet "internal 27mhz"
  let t2 ← SynthHD.triggerModeSet "disabled"
  let t3 ← SynthHD.sweepEnableSet (.pyBool false)
  let t4 ← SynthHD.amEnableSet (.pyBool false)
  let t5 ← SynthHD.pulseModEnableSet (.pyBool false)
  let t6 ← SynthHD.dualPulseModEnableSet (.pyBool false)
  let t7 ← SynthHD.fmEnableSet (.pyBool false)
  let rest ← d.channels.mapM SynthHDChannel.initTrace
  pure (d, t1 ++ t2 ++ t3 ++ t4 ++ t5 ++ t6 ++ t7 ++ rest.flatten)

end SynthHDState

/-- Deciding equality of `Except` results, used to evaluate the embedding
on concrete inputs. -/
instance {ε α : Type} [DecidableEq ε] [DecidableEq α] :
    DecidableEq (Except ε α) := fun a b =>
  match a, b with
  | .ok x, .ok y =>
      if h : x = y then .isTrue (by rw [h]) else .isFalse (by simp [h])
  | .error x, .error y =>
      if h : x = y then .isTrue (by rw [h]) else .isFalse (by simp [h])
  | .ok _, .error _ => .isFalse (by simp)
  | .error _, .ok _ => .isFalse (by simp)

/-- The channel-select write transmits the single line `C` followed by the
channel's index in decimal. -/
theorem select_line (c : SynthHDChannel) :
    c.select = .ok ("C" ++ toString (c.index : Int)) := by
  simp [SynthHDChannel.select, SerialDevice.write, apiLookup, API,
    formatTemplate, formatArg, String.append_empty]

/-- Indexing a tuple at an index at or beyond its length, or below minus
its length, raises `IndexError`. -/
theorem pyTupleGet_out_of_range (xs : List String) (i : Int)
    (h : (xs.length : Int) ≤ i ∨ i < -(xs.length : Int)) :
    pyTupleGet xs i = none := by
  unfold pyTupleGet
  rw [if_neg (by omega), if_neg (by omega)]

/-- Indexing a tuple at a negative index of magnitude at most its length
succeeds (reads from the back). -/
theorem pyTupleGet_neg_isSome (xs : List String) (i : Int)
    (h1 : -(xs.length : Int) ≤ i) (h2 : i < 0) :
    (pyTupleGet xs i).isSome = true := by
  unfold pyTupleGet
  rw [if_neg (by omega), if_pos ⟨h1, h2⟩, Option.isSome_iff_ne_none]
  intro hc
  rw [List.get?_eq_none] at hc
  omega

/-- Indexing a tuple at a nonnegative index below its length succeeds. -/
theorem pyTupleGet_nonneg_isSome (xs : List String) (i : Int)
    (h1 : 0 ≤ i) (h2 : i < (xs.length : Int)) :
    (pyTupleGet xs i).isSome = true := by
  unfold pyTupleGet
  rw [if_pos ⟨h1, h2⟩, Option.isSome_iff_ne_none]
  intro hc
  rw [List.get?_eq_none] at hc
  omega

/-- The rational encoded by the fixed-point `{:.pf}` rendering of `x`
(see `formatFixed`): `x` rounded to the nearest multiple of `10 ^ (-p)`. -/
def decimalQuant (p : Nat) (x : ℚ) : ℚ :=
  (round (x * 10 ^ p) : ℚ) / 10 ^ p

/-- C1, counterexample: assigning `enable = True` on channel 0 transmits
the lines `C0, h1, C0, E1, C0, r1` — the mute-off line is `h1`, not `h0`
(the `rf_mute` setter writes `not value`), and `h0` appears nowhere in the
transmitted trace. -/
theorem C1_counterexample :
    SynthHDChannel.enableSet ⟨0⟩ (.pyBool true) =
      .ok ["C0", "h1", "C0", "E1", "C0", "r1"] ∧
    "h0" ∉ ["C0", "h1", "C0", "E1", "C0", "r1"] := by
  decide

/-- C1, amended: assigning `enable = True` on a channel fans out to exactly
three underlying attribute writes in the fixed order `rf_mute`,
`pll_power_on`, `pa_power_on`, each preceded by that channel's select
write; the transmitted attribute command lines are `h1` (mute off, since
the `rf_mute` setter inverts its value), `E1` and `r1` in that order. -/
theorem C1_enable_true_writes (idx : Nat) (h : idx < 2) :
    SynthHDChannel.enableSet ⟨idx⟩ (.pyBool true) =
      .ok ["C" ++ toString idx, "h1", "C" ++ toString idx, "E1",
           "C" ++ toString idx, "r1"] := by
  interval_cases idx <;> decide

/-- C1, witness: the amended claim evaluated on channel 0. -/
theorem C1_witness :
    SynthHDChannel.enableSet ⟨0⟩ (.pyBool true) =
      .ok ["C" ++ toString 0, "h1", "C" ++ toString 0, "E1",
           "C" ++ toString 0, "r1"] :=
  C1_enable_true_writes 0 (by decide)

/-- C2, counterexample: a device reply decoding to index `-1` is outside
the known sequence of every mode getter, yet each getter silently returns
the last mode string (Python negative indexing) instead of failing. -/
theorem C2_counterexample :
    SynthHD.referenceModeGet (-1) = some "internal 10mhz" ∧
    SynthHD.triggerModeGet (-1) = some "fm modulation" ∧
    SynthHDChannel.tempCompModeGet (-1) = some "10 sec" := by
  decide

/-- C2, amended: each enumerated-mode getter fails predictably
(`IndexError`, modelled as `none`) whenever the decoded index is at or
beyond the sequence length or below minus the length; but a negative index
in `[-length, -1]` silently returns a mode string via Python's backward
indexing, so the failure does not cover every out-of-range integer. -/
theorem C2_mode_get_bounds (i : Int) :
    ((3 ≤ i ∨ i < -3) → SynthHD.referenceModeGet i = none) ∧
    ((-3 ≤ i ∧ i < 0) → (SynthHD.referenceModeGet i).isSome = true) ∧
    ((10 ≤ i ∨ i < -10) → SynthHD.triggerModeGet i = none) ∧
    ((-10 ≤ i ∧ i < 0) → (SynthHD.triggerModeGet i).isSome = true) ∧
    ((4 ≤ i ∨ i < -4) → SynthHDChannel.tempCompModeGet i = none) ∧
    ((-4 ≤ i ∧ i < 0) → (SynthHDChannel.tempCompModeGet i).isSome = true) := by
  have e1 : (SynthHD.reference_modes.length : Int) = 3 := rfl
  have e2 : (SynthHD.trigger_modes.length : Int) = 10 := rfl
  have e3 : (SynthHDChannel.temp_compensation_modes.length : Int) = 4 := rfl
  refine ⟨fun h => pyTupleGet_out_of_range _ i (by omega),
          fun h => pyTupleGet_neg_isSome _ i (by omega) h.2,
          fun h => pyTupleGet_out_of_range _ i (by omega),
          fun h => pyTupleGet_neg_isSome _ i (by omega) h.2,
          fun h => pyTupleGet_out_of_range _ i (by omega),
          fun h => pyTupleGet_neg_isSome _ i (by omega) h.2⟩

/-- C2, witness: the amended claim evaluated at index 5 (failure of the
reference-mode getter) via the theorem. -/
theorem C2_witness :
    SynthHD.referenceModeGet 5 = none :=
  (C2_mode_get_bounds 5).1 (Or.inl (by decide))

/-- C4, counterexample: with the underlying reads
`rf_mute = false, pll_power_on = true, pa_power_on = true` the claim
predicts `enable = True`, but the getter returns `False`: the `rf_mute`
property already inverts the raw read, and the getter negates it again,
so the two inversions cancel. -/
theorem C4_counterexample :
    SynthHDChannel.enableGet false true true = false := by
  decide

/-- C4, amended: the enable getter is the logical AND of the three
underlying reads with the `rf_mute` read taken un-inverted (the
property-level inversion and the getter's negation cancel): it returns
True iff the `rf_mute` attribute reads true AND `pll_power_on` reads true
AND `pa_power_on` reads true, for all 8 combinations. -/
theorem C4_enable_get (a b c : Bool) :
    SynthHDChannel.enableGet a b c = (a && b && c) := by
  cases a <;> cases b <;> cases c <;> rfl

/-- Writing the `frequency` attribute transmits `f` followed by the MHz
value rendered with 7 decimals. -/
theorem write_frequency_line (q : ℚ) :
    SerialDevice.write "frequency" [.pyFloat q] =
      .ok ("f" ++ formatFixed 7 q) := by
  simp [SerialDevice.write, apiLookup, API, formatTemplate, formatArg,
    String.append_empty]

/-- Writing the `reference_mode` attribute transmits `x` followed by the
index in decimal. -/
theorem write_reference_mode_line (n : Int) :
    SerialDevice.write "reference_mode" [.pyInt n] =
      .ok ("x" ++ toString n) := by
  simp [SerialDevice.write, apiLookup, API, formatTemplate, formatArg,
    String.append_empty]

/-- C3, counterexample: the power setter accepts 100 dBm — far outside the
published range `[-60, 20]` — and transmits it instead of raising: the
setter checks the type only, never the range. -/
theorem C3_counterexample :
    (SynthHDChannel.powerSet ⟨0⟩ (.pyFloat 100)).isOk = true ∧
    ¬ ((100 : ℚ) ≤ SynthHDChannel.power_range.stop) := by
  constructor
  · simp [SynthHDChannel.powerSet, SynthHDChannel.write,
      SynthHDChannel.select, SerialDevice.write, apiLookup, API,
      formatTemplate, formatArg, PyVal.isNumber]
    rfl
  · norm_num [SynthHDChannel.power_range]

/-- C3, amended: all five setters raise `ValidationError` for input of the
wrong type (non-numeric for frequency, power, phase and reference
frequency; non-int for the VGA DAC), but only the frequency and reference
frequency setters also validate the range: the power, phase and VGA DAC
setters transmit every value of the accepted type, in or out of the
published range. -/
theorem C3_setter_validation (c : SynthHDChannel) (v : PyVal) (q : ℚ)
    (n : Int) :
    (v.isNumber = false →
      c.frequencySet v = .error .validation ∧
      c.powerSet v = .error .validation ∧
      c.phaseSet v = .error .validation ∧
      SynthHD.referenceFrequencySet v = .error .validation) ∧
    (v.isIntType = false → c.vgaDacSet v = .error .validation) ∧
    (v.isNumber = true → v.toRat < 53000000 ∨ 13999999999 < v.toRat →
      c.frequencySet v = .error .validation) ∧
    (v.isNumber = true → v.toRat < 10000000 ∨ 100000000 < v.toRat →
      SynthHD.referenceFrequencySet v = .error .validation) ∧
    (c.powerSet (.pyFloat q)).isOk = true ∧
    (c.phaseSet (.pyFloat q)).isOk = true ∧
    (c.vgaDacSet (.pyInt n)).isOk = true := by
  refine ⟨fun h => ⟨?_, ?_, ?_, ?_⟩, fun h => ?_, fun h1 h2 => ?_,
    fun h1 h2 => ?_, ?_, ?_, ?_⟩
  · simp [SynthHDChannel.frequencySet, h]
  · simp [SynthHDChannel.powerSet, h]
  · simp [SynthHDChannel.phaseSet, h]
  · simp [SynthHD.referenceFrequencySet, h]
  · simp [SynthHDChannel.vgaDacSet, h]
  · unfold SynthHDChannel.frequencySet
    rw [if_neg]
    rintro ⟨k1, k2, k3⟩
    simp [SynthHDChannel.frequency_range] at k2 k3
    rcases h2 with h2 | h2 <;> linarith
  · unfold SynthHD.referenceFrequencySet
    rw [if_neg]
    rintro ⟨k1, k2, k3⟩
    simp [SynthHD.reference_frequency_range] at k2 k3
    rcases h2 with h2 | h2 <;> linarith
  · simp [SynthHDChannel.powerSet, SynthHDChannel.write,
      SynthHDChannel.select, SerialDevice.write, apiLookup, API,
      formatTemplate, formatArg, PyVal.isNumber]
    rfl
  · simp [SynthHDChannel.phaseSet, SynthHDChannel.write,
      SynthHDChannel.select, SerialDevice.write, apiLookup, API,
      formatTemplate, formatArg, PyVal.isNumber]
    rfl
  · simp [SynthHDChannel.vgaDacSet, SynthHDChannel.write,
      SynthHDChannel.select, SerialDevice.write, apiLookup, API,
      formatTemplate, formatArg, PyVal.isIntType]
    rfl

/-- C3, witness: the amended claim evaluated at the non-numeric input
`pyStr "f"` via the theorem. -/
theorem C3_witness :
    SynthHDChannel.frequencySet ⟨0⟩ (.pyStr "f") = .error .validation ∧
    SynthHDChannel.powerSet ⟨0⟩ (.pyStr "f") = .error .validation ∧
    SynthHDChannel.phaseSet ⟨0⟩ (.pyStr "f") = .error .validation ∧
    SynthHD.referenceFrequencySet (.pyStr "f") = .error .validation :=
  (C3_setter_validation ⟨0⟩ (.pyStr "f") 0 0).1 rfl

/-- C5: for every attribute and every argument list, a channel-scoped
write (resp. read) whose delegated session write (resp. read) transmits
line `l` transmits exactly the channel-select line `C` + index followed
immediately by `l`, with nothing in between; the select line is `C0` for
channel 0 and `C1` for channel 1. -/
theorem C5_channel_select_first (c : SynthHDChannel) (attr : String)
    (args : List PyVal) (l : String) :
    (SerialDevice.write attr args = .ok l →
      c.write attr args = .ok ["C" ++ toString (c.index : Int), l]) ∧
    (SerialDevice.read attr args = .ok l →
      c.read attr args = .ok ["C" ++ toString (c.index : Int), l]) ∧
    "C" ++ toString ((0 : Nat) : Int) = "C0" ∧
    "C" ++ toString ((1 : Nat) : Int) = "C1" := by
  refine ⟨fun h => ?_, fun h => ?_, by decide, by decide⟩
  · unfold SynthHDChannel.write
    rw [select_line c, h]
    rfl
  · unfold SynthHDChannel.read
    rw [select_line c, h]
    rfl

/-- C5, witness: a channel-0 write of the `vga_dac` attribute via the
theorem. -/
theorem C5_witness :
    SynthHDChannel.write ⟨0⟩ "vga_dac" [.pyInt 5] =
      .ok ["C" ++ toString ((0 : Nat) : Int), "a5"] :=
  (C5_channel_select_first ⟨0⟩ "vga_dac" [.pyInt 5] "a5").1 (by decide)

/-- C6: setting the channel frequency to a non-numeric value or to any
value outside `[53e6, 13999.999999e6]` Hz raises `ValidationError` with
no transport I/O: the error is returned before any line — channel-select
or frequency command — is produced, and the driver state is untouched
(the setter is a pure function of its input). -/
theorem C6_frequency_reject_before_io (c : SynthHDChannel) (v : PyVal)
    (h : v.isNumber = false ∨ v.toRat < 53000000 ∨ 13999999999 < v.toRat) :
    c.frequencySet v = .error .validation := by
  unfold SynthHDChannel.frequencySet
  rw [if_neg]
  rintro ⟨h1, h2, h3⟩
  simp [SynthHDChannel.frequency_range] at h2 h3
  rcases h with h | h | h
  · rw [h] at h1
    exact absurd h1 (by simp)
  · linarith
  · linarith

/-- C6, witness: the theorem evaluated at 1 Hz (below the range). -/
theorem C6_witness :
    SynthHDChannel.frequencySet ⟨0⟩ (.pyFloat 1) = .error .validation :=
  C6_frequency_reject_before_io ⟨0⟩ (.pyFloat 1) (Or.inr (Or.inl (by decide)))

/-- C7: for every in-range frequency `v` (Hz), the setter transmits
`v / 1e6` MHz rendered with 7 decimals, and the getter — the device's MHz
reading times 1e6 — applied to the quantized value the 7-decimal format
encodes (`decimalQuant 7`) returns `v` up to the 0.1 Hz precision implied
by the format (the exact error is at most 0.05 Hz). -/
theorem C7_frequency_roundtrip (c : SynthHDChannel) (v : ℚ)
    (h1 : 53000000 ≤ v) (h2 : v ≤ 13999999999) :
    c.frequencySet (.pyFloat v) =
      .ok ["C" ++ toString (c.index : Int),
           "f" ++ formatFixed 7 (v / 1000000)] ∧
    |SynthHDChannel.frequencyGet (decimalQuant 7 (v / 1000000)) - v| ≤
      1 / 10 := by
  constructor
  · unfold SynthHDChannel.frequencySet
    rw [if_pos ⟨rfl, h1, h2⟩]
    unfold SynthHDChannel.write
    rw [select_line c, write_frequency_line]
    rfl
  · have harg : (v / 1000000) * (10 : ℚ) ^ (7 : Nat) = v * 10 := by ring
    unfold SynthHDChannel.frequencyGet decimalQuant
    rw [harg]
    have hr := abs_sub_round (v * 10)
    have he : ((round (v * 10) : ℤ) : ℚ) / 10 ^ (7 : Nat) * 1000000 - v =
        -((v * 10 - ((round (v * 10) : ℤ) : ℚ)) / 10) := by
      ring
    rw [he, abs_neg, abs_div]
    have h10 : |(10 : ℚ)| = 10 := by norm_num
    rw [h10]
    linarith

/-- C7, witness: the round trip evaluated at 53 MHz via the theorem. -/
theorem C7_witness :
    SynthHDChannel.frequencySet ⟨0⟩ (.pyFloat 53000000) =
      .ok ["C" ++ toString ((0 : Nat) : Int),
           "f" ++ formatFixed 7 ((53000000 : ℚ) / 1000000)] ∧
    |SynthHDChannel.frequencyGet
        (decimalQuant 7 ((53000000 : ℚ) / 1000000)) - 53000000| ≤ 1 / 10 :=
  C7_frequency_roundtrip ⟨0⟩ 53000000 (by norm_num) (by norm_num)

/-- C8: setting `reference_mode` to a string outside the fixed sequence
`('external', 'internal 27mhz', 'internal 10mhz')` raises
`ValidationError` before any line is transmitted; setting it to a string
in the sequence writes that string's index to the `reference_mode`
attribute (line `x` + index). -/
theorem C8_reference_mode_set (s : String) :
    (s ∉ SynthHD.reference_modes →
      SynthHD.referenceModeSet s = .error .validation) ∧
    (s ∈ SynthHD.reference_modes →
      SynthHD.referenceModeSet s =
        .ok ["x" ++ toString (SynthHD.reference_modes.indexOf s : Int)]) := by
  constructor
  · intro h
    unfold SynthHD.referenceModeSet
    rw [if_neg h]
  · intro h
    unfold SynthHD.referenceModeSet
    rw [if_pos h, write_reference_mode_line]
    rfl

/-- C8, witness: both branches of the theorem evaluated — rejection of
`'bogus'` and acceptance of `'external'` (index 0). -/
theorem C8_witness :
    SynthHD.referenceModeSet "bogus" = .error .validation ∧
    SynthHD.referenceModeSet "external" =
      .ok ["x" ++ toString (SynthHD.reference_modes.indexOf "external" : Int)] :=
  ⟨(C8_reference_mode_set "bogus").1 (by decide),
   (C8_reference_mode_set "external").2 (by decide)⟩

/-- C9: `trigger_modes` holds `'reserved'` at indices 6 and 7; the setter
given `'reserved'` writes index 6 (`w6`, the first occurrence); no mode
string maps to index 7, so device trigger index 7 is unreachable through
the setter; and the get-then-set round trip from device index 7 yields
`'reserved'` and stores 6. -/
theorem C9_trigger_reserved :
    SynthHD.trigger_modes.get? 6 = some "reserved" ∧
    SynthHD.trigger_modes.get? 7 = some "reserved" ∧
    SynthHD.triggerModeGet 7 = some "reserved" ∧
    SynthHD.triggerModeSet "reserved" = .ok ["w6"] ∧
    (∀ s ∈ SynthHD.trigger_modes, SynthHD.trigger_modes.indexOf s ≠ 7) ∧
    (∀ s ∈ SynthHD.trigger_modes,
      SynthHD.triggerModeSet s ≠ .ok ["w7"]) := by
  refine ⟨by decide, by decide, by decide, by decide, ?_, ?_⟩
  · intro s hs
    fin_cases hs <;> decide
  · intro s hs
    fin_cases hs <;> decide

/-- C9, witness: the universally quantified parts of the theorem evaluated
at the mode string `'disabled'`. -/
theorem C9_witness :
    SynthHD.trigger_modes.indexOf "disabled" ≠ 7 ∧
    SynthHD.triggerModeSet "disabled" ≠ .ok ["w7"] :=
  ⟨C9_trigger_reserved.2.2.2.2.1 "disabled" (by decide),
   C9_trigger_reserved.2.2.2.2.2 "disabled" (by decide)⟩

/-- C10: a SynthHD device is a fixed sequence of exactly two channels:
`len` is 2, `device[i]` for `i < 2` is the channel view carrying index
`i` (whose select writes `C{i}`), any other index fails, and the channel
list created at construction is preserved by the device's operations —
`SynthHD.init`, the only modelled operation that could touch it, returns
the channel list unchanged (no statement in the source outside
`__init__` assigns `_channels`). -/
theorem C10_two_channels :
    SynthHDState.make.len = 2 ∧
    SynthHDState.make.getitem 0 = some ⟨0⟩ ∧
    SynthHDState.make.getitem 1 = some ⟨1⟩ ∧
    (∀ i : Nat, 2 ≤ i → SynthHDState.make.getitem i = none) ∧
    (∀ (d d' : SynthHDState) (tr : List String),
      d.initOp = .ok (d', tr) → d'.channels = d.channels) := by
  refine ⟨rfl, rfl, rfl, ?_, ?_⟩
  · intro i hi
    unfold SynthHDState.getitem SynthHDState.make
    rw [List.get?_eq_none]
    simpa using hi
  · intro d d' tr h
    have e : d.initOp = (d.channels.mapM SynthHDChannel.initTrace).map
        (fun r =>
          (d, ["x1", "w0", "c0", "A0", "j0", "D0", "/0"] ++ r.flatten)) := rfl
    rw [e] at h
    cases hm : d.channels.mapM SynthHDChannel.initTrace with
    | ok r =>
        rw [hm] at h
        simp [Except.map] at h
        rw [← h.1]
    | error e2 =>
        rw [hm] at h
        simp [Except.map] at h

/-- C10, witness: the out-of-range branch of the theorem at index 2. -/
theorem C10_witness :
    SynthHDState.make.getitem 2 = none :=
  C10_two_channels.2.2.2.1 2 (by decide)

end Windfreak
